import Mathlib

/-!
Painel de Automação Residencial: embedding of `src/main.c`

The firmware is a single-threaded loop over a handful of globals.  The
embedding keeps every global, every function-local `static` and every GPIO
output latch of `main.c` as a field of one record, `Estado`, and turns each
C function (and each phase of the body of `while (true)` in `main`) into a
pure function on that record.

Conventions
* `Cor` is the C enum seen as its integer value (`VERMELHO = 0`, …, `LILAS = 5`).
* `uint32_t` / `uint8_t` values are `Nat`; where C arithmetic wraps the
  reduction `% 2 ^ 32` is written out.
* a C `char` is a `Char` whose code is the byte value; the two-byte UTF-8
  sequences of the source (`á`, `ê`) are written as their two bytes.
* a `float` returned by `ler_temperatura` is the rational number the finite
  binary32 value denotes; `40.0f` is exactly `40`.
-/

namespace Painel

/-! ## Globals -/

/-- `typedef enum { VERMELHO, VERDE, AZUL, AMARELO, CIANO, LILAS } Cor;` -/
abbrev Cor := Nat

def VERMELHO : Cor := 0
def VERDE : Cor := 1
def AZUL : Cor := 2
def AMARELO : Cor := 3
def CIANO : Cor := 4
def LILAS : Cor := 5

/-- The file-scope variables of `main.c` (lines 41-48), the three `static`
locals of the button block of `main` (lines 147-149), the output latches of
the GPIO pins the program writes (`BUZZER`, `LED_R`, `LED_G`, `LED_B`), the
last frame of 25 words pushed to the WS2812 state machine and the last
strings drawn on the OLED. -/
structure Estado where
  cor_atual : Cor
  led_ligado : Bool
  emergencia : Bool
  ultima_leitura_temperatura : Nat
  ultimo_botao : Nat
  ultima_atualizacao_oled : Nat
  ultimo_buzzer : Nat
  botao_joystick_pressionado : Bool
  botao_a_pressionado : Bool
  botao_b_pressionado : Bool
  buzzer : Bool
  led_r : Bool
  led_g : Bool
  led_b : Bool
  matriz : List Nat
  oled : List (List Char × Nat × Nat)
deriving DecidableEq, Repr

/-- The values the initialisers of lines 41-48 and 147-149 and
`inicializar_perifericos` give: LED off, colour `VERMELHO`, no emergency. -/
def estado_inicial : Estado where
  cor_atual := VERMELHO
  led_ligado := false
  emergencia := false
  ultima_leitura_temperatura := 0
  ultimo_botao := 0
  ultima_atualizacao_oled := 0
  ultimo_buzzer := 0
  botao_joystick_pressionado := false
  botao_a_pressionado := false
  botao_b_pressionado := false
  buzzer := false
  led_r := false
  led_g := false
  led_b := false
  matriz := []
  oled := []

/-! ## C strings -/

/-- The C string held by a buffer that was filled with `bytes` and then
NUL-terminated: everything before the first NUL byte. -/
def c_str (bytes : List Char) : List Char :=
  bytes.takeWhile (fun c => c != '\x00')

/-- `strstr(palheiro, agulha)`: the offset of the first occurrence of `agulha`
in `palheiro` (the returned pointer minus `palheiro`), or `none` for `NULL`. -/
def strstr : List Char → List Char → Option Nat
  | [], agulha => if agulha.isEmpty then some 0 else none
  | c :: resto, agulha =>
    if agulha.isPrefixOf (c :: resto) then some 0
    else (strstr resto agulha).map (· + 1)

/-! ## HTTP command dispatch (`processar_requisicao`, lines 320-340) -/

def processar_requisicao (s : Estado) (requisicao : List Char) : Estado :=
  if (strstr requisicao "GET /led_on".toList).isSome then
    { s with led_ligado := true }
  else if (strstr requisicao "GET /led_off".toList).isSome then
    { s with led_ligado := false }
  else if (strstr requisicao "GET /color_red".toList).isSome then
    { s with cor_atual := VERMELHO }
  else if (strstr requisicao "GET /color_green".toList).isSome then
    { s with cor_atual := VERDE }
  else if (strstr requisicao "GET /color_blue".toList).isSome then
    { s with cor_atual := AZUL }
  else if (strstr requisicao "GET /color_yellow".toList).isSome then
    { s with cor_atual := AMARELO }
  else if (strstr requisicao "GET /color_cyan".toList).isSome then
    { s with cor_atual := CIANO }
  else if (strstr requisicao "GET /color_lilas".toList).isSome then
    { s with cor_atual := LILAS }
  else if (strstr requisicao "GET /alarm_off".toList).isSome then
    { s with emergencia := false }
  else s

/-! ## Status page (`tcp_server_recv`, lines 343-426) -/

/-- The format string of the `snprintf` of lines 379-411 up to its first
conversion: status line, headers, style sheet, the nine buttons and the
opening of the LED paragraph. -/
def html_cabecalho : List Char :=
  ("HTTP/1.1 200 OK\r\n" ++
   "Content-Type: text/html\r\n" ++
   "\r\n" ++
   "<!DOCTYPE html>" ++
   "<html>" ++
   "<head>" ++
   "<meta charset=\"UTF-8\">" ++
   "<title>Painel Casa Inteligente</title>" ++
   "<style>" ++
   "body\x7bfont-family:Arial;text-align:center;margin:10px;background-color:#b5e5fb\x7d" ++
   "h1\x7bfont-size:40px\x7d" ++
   "button\x7bfont-size:32px;margin:5px;padding:5px\x7d" ++
   ".s\x7bfont-size:32px;margin:5px\x7d" ++
   "</style>" ++
   "</head>" ++
   "<body>" ++
   "<h1>Painel Casa Inteligente</h1>" ++
   "<form action=\"./led_on\"><button>Ligar LED</button></form>" ++
   "<form action=\"./led_off\"><button>Desligar LED</button></form>" ++
   "<form action=\"./color_red\"><button>Vermelho</button></form>" ++
   "<form action=\"./color_green\"><button>Verde</button></form>" ++
   "<form action=\"./color_blue\"><button>Azul</button></form>" ++
   "<form action=\"./color_yellow\"><button>Amarelo</button></form>" ++
   "<form action=\"./color_cyan\"><button>Ciano</button></form>" ++
   "<form action=\"./color_lilas\"><button>Lil\xc3\xa1s</button></form>" ++
   "<form action=\"./alarm_off\"><button>Desligar Alarme</button></form>" ++
   "<p class=s>LED: ").toList

/-- The format string of lines 379-411 with its four conversions (`%s`, `%s`,
`%.2f`, `%s`) replaced by the texts `led`, `cor`, `temp` and `emerg`. -/
def html_formato (led cor temp emerg : List Char) : List Char :=
  html_cabecalho ++ led ++ "</p><p class=s>Cor: ".toList ++ cor ++
    "</p><p class=s>Temperatura: ".toList ++ temp ++
    "C</p><p class=s>Emerg\xc3\xaancia: ".toList ++ emerg ++
    "</p></body></html>".toList

/-- Argument of the first `%s` (line 412). -/
def texto_led (s : Estado) : List Char :=
  if s.led_ligado then "LIGADO".toList else "DESLIGADO".toList

/-- Argument of the second `%s` (lines 413-417). -/
def texto_cor (s : Estado) : List Char :=
  if s.cor_atual = VERMELHO then "Vermelho".toList
  else if s.cor_atual = VERDE then "Verde".toList
  else if s.cor_atual = AZUL then "Azul".toList
  else if s.cor_atual = AMARELO then "Amarelo".toList
  else if s.cor_atual = CIANO then "Ciano".toList
  else "Lil\xc3\xa1s".toList

/-- Argument of the last `%s` (line 419). -/
def texto_emergencia (s : Estado) : List Char :=
  if s.emergencia then "LIGADA".toList else "DESLIGADA".toList

/-- `snprintf(buf, tamanho, ...)` followed by `strlen(buf)`: of the formatted
text at most `tamanho - 1` bytes are kept. -/
def snprintf (tamanho : Nat) (texto : List Char) : List Char :=
  texto.take (tamanho - 1)

/-- `tcp_server_recv`.  `p` is the payload of the received buffer (`none` for
a null `p`), `temp` the `%.2f` rendering of the value `ler_temperatura`
returns at line 376.  The result is the new state and the bytes handed to
`tcp_write`, if any. -/
def tcp_server_recv (s : Estado) (p : Option (List Char)) (temp : List Char) :
    Estado × Option (List Char) :=
  match p with
  | none => (s, none)
  | some payload =>
    let requisicao := c_str payload
    let s1 := processar_requisicao s requisicao
    let html := snprintf 1536
      (html_formato (texto_led s1) (texto_cor s1) temp (texto_emergencia s1))
    (s1, some html)

/-! ## Actuators -/

/-- The `switch (cor)` of lines 284-291, which lines 226-233 repeat verbatim:
the `(r, g, b)` it leaves, all three starting at 0; no `default` case. -/
def switch_cor (cor : Cor) : Nat × Nat × Nat :=
  if cor = VERMELHO then (32, 0, 0)
  else if cor = VERDE then (0, 32, 0)
  else if cor = AZUL then (0, 0, 32)
  else if cor = AMARELO then (32, 32, 0)
  else if cor = CIANO then (0, 32, 32)
  else if cor = LILAS then (32, 0, 32)
  else (0, 0, 0)

/-- `configurar_led_rgb` (lines 281-296): the levels put on `LED_R`, `LED_G`
and `LED_B`, in that order. -/
def configurar_led_rgb (cor : Cor) (estado : Bool) : Bool × Bool × Bool :=
  let rgb : Nat × Nat × Nat := if estado then switch_cor cor else (0, 0, 0)
  (decide (rgb.1 > 0), decide (rgb.2.1 > 0), decide (rgb.2.2 > 0))

def pixel_map : List (List Nat) :=
  [[24, 23, 22, 21, 20],
   [15, 16, 17, 18, 19],
   [14, 13, 12, 11, 10],
   [5, 6, 7, 8, 9],
   [4, 3, 2, 1, 0]]

def padrao_V : List (List Nat) :=
  [[0, 0, 0, 0, 0],
   [1, 0, 0, 0, 1],
   [1, 0, 0, 0, 1],
   [0, 1, 0, 1, 0],
   [0, 0, 1, 0, 0]]

def padrao_exclamacao : List (List Nat) :=
  [[0, 0, 1, 0, 0],
   [0, 0, 1, 0, 0],
   [0, 0, 1, 0, 0],
   [0, 0, 0, 0, 0],
   [0, 0, 1, 0, 0]]

/-- Element `[i][j]` of a `[5][5]` table. -/
def celula (tabela : List (List Nat)) (i j : Nat) : Nat :=
  (tabela.getD i []).getD j 0

/-- The array `pixels` of `configurar_matriz` after the two nested loops of
lines 301-307; `r`, `g`, `b` are `uint8_t`. -/
def preencher_pixels (padrao : List (List Nat)) (r g b : Nat) : List Nat :=
  (List.range 5).foldl
    (fun pixels i =>
      (List.range 5).foldl
        (fun pixels j =>
          if celula padrao i j ≠ 0 then
            pixels.set (celula pixel_map i j) ((r <<< 8) ||| (g <<< 16) ||| b)
          else pixels)
        pixels)
    (List.replicate 25 0)

/-- `configurar_matriz` (lines 299-311): the 25 words handed, in order, to
`pio_sm_put_blocking`; each is the `uint32_t` value `pixels[i] << 8u`. -/
def configurar_matriz (padrao : List (List Nat)) (r g b : Nat) : List Nat :=
  (preencher_pixels padrao r g b).map (fun pixel => (pixel <<< 8) % 2 ^ 32)

/-! ## Phases of the main loop (`main`, lines 141-240) -/

/-- The `uint32_t` difference `agora - ultimo`. -/
def decorrido (agora ultimo : Nat) : Nat :=
  (((agora : Int) - (ultimo : Int)) % 2 ^ 32).toNat

/-- The right-hand side of line 157, `(cor_atual + 1) % 6`. -/
def proxima_cor (cor : Cor) : Cor :=
  (cor + 1) % 6

/-- Lines 151-188: the three buttons, sampled through `gpio_get` (the pins
are active low) and compared with the flags kept from the previous pass.
`sleep_ms(200)` changes no variable. -/
def verificar_botoes (s : Estado) (gpio_joystick gpio_botao_a gpio_botao_b : Bool) :
    Estado :=
  let estado_joystick := !gpio_joystick
  let estado_botao_a := !gpio_botao_a
  let estado_botao_b := !gpio_botao_b
  let s1 :=
    if estado_joystick && !s.botao_joystick_pressionado then
      { s with cor_atual := proxima_cor s.cor_atual, botao_joystick_pressionado := true }
    else if !estado_joystick then
      { s with botao_joystick_pressionado := false }
    else s
  let s2 :=
    if estado_botao_a && !s1.botao_a_pressionado then
      { s1 with led_ligado := !s1.led_ligado, botao_a_pressionado := true }
    else if !estado_botao_a then
      { s1 with botao_a_pressionado := false }
    else s1
  if estado_botao_b && !s2.botao_b_pressionado then
    { s2 with emergencia := false, botao_b_pressionado := true }
  else if !estado_botao_b then
    { s2 with botao_b_pressionado := false }
  else s2

/-- Lines 146-191. -/
def fase_botoes (s : Estado) (agora : Nat)
    (gpio_joystick gpio_botao_a gpio_botao_b : Bool) : Estado :=
  if decorrido agora s.ultimo_botao ≥ 10 then
    { verificar_botoes s gpio_joystick gpio_botao_a gpio_botao_b with
      ultimo_botao := agora }
  else s

/-- Lines 195-198: the threshold test on the value read. -/
def verificar_temperatura (s : Estado) (temperatura : ℚ) : Estado :=
  if temperatura > 40 then { s with emergencia := true } else s

/-- Lines 194-200. -/
def fase_temperatura (s : Estado) (agora : Nat) (temperatura : ℚ) : Estado :=
  if decorrido agora s.ultima_leitura_temperatura ≥ 1000 then
    { verificar_temperatura s temperatura with ultima_leitura_temperatura := agora }
  else s

/-- `atualizar_display` (lines 429-440): the four strings drawn, each with its
position.  `temp` is the `%.2f` rendering of the value read at line 433 and
`ip` the text of the address (or `N/A`). -/
def atualizar_display (s : Estado) (temp ip : List Char) : Estado :=
  let temp_str := snprintf 20 ("TEMP: ".toList ++ temp ++ "C".toList)
  let ip_str := snprintf 16 ip
  { s with oled :=
      [(temp_str, 20, 2),
       (if s.emergencia then "EMERGENCIA: ON".toList else "EMERGENCIA: OFF".toList, 2, 18),
       ("IP P/ CONEXAO:".toList, 6, 34),
       (ip_str, 6, 50)] }

/-- Lines 203-206. -/
def fase_display (s : Estado) (agora : Nat) (temp ip : List Char) : Estado :=
  if decorrido agora s.ultima_atualizacao_oled ≥ 1000 then
    { atualizar_display s temp ip with ultima_atualizacao_oled := agora }
  else s

/-- Lines 209-214. -/
def fase_buzzer (s : Estado) (agora : Nat) : Estado :=
  if s.emergencia && decide (decorrido agora s.ultimo_buzzer ≥ 1000) then
    { s with buzzer := !s.buzzer, ultimo_buzzer := agora }
  else if !s.emergencia && s.buzzer then
    { s with buzzer := false }
  else s

/-- Lines 217-237: the RGB LED and the matrix, written on every pass. -/
def renderizar (s : Estado) : Estado :=
  let led :=
    if !s.emergencia then configurar_led_rgb s.cor_atual s.led_ligado
    else configurar_led_rgb s.cor_atual false
  let palavras :=
    if s.emergencia then configurar_matriz padrao_exclamacao 32 0 0
    else if s.led_ligado then
      let rgb := switch_cor s.cor_atual
      configurar_matriz padrao_V rgb.1 rgb.2.1 rgb.2.2
    else configurar_matriz padrao_V 0 0 0
  { s with led_r := led.1, led_g := led.2.1, led_b := led.2.2, matriz := palavras }

/-! ## One pass of the loop -/

/-- One call of `tcp_server_recv` made by the stack: the payload (`none` for
a null buffer) and the `%.2f` text of the temperature read while serving it. -/
structure Pedido where
  p : Option (List Char)
  temp : List Char
deriving DecidableEq, Repr

/-- `cyw43_arch_poll` (line 142): the stack delivers the pending buffers, one
`tcp_server_recv` call each, in order.  Returns the pages written. -/
def cyw43_arch_poll (s : Estado) (pedidos : List Pedido) : Estado × List (List Char) :=
  pedidos.foldl
    (fun acc pedido =>
      let r := tcp_server_recv acc.1 pedido.p pedido.temp
      (r.1, acc.2 ++ r.2.toList))
    (s, [])

/-- What one pass of the loop reads from outside: the buffers the network poll
delivers, the value of `to_ms_since_boot`, the levels `gpio_get` returns for
the three input pins, the value `ler_temperatura` returns at line 195, and the
texts `atualizar_display` formats. -/
structure Entrada where
  pedidos : List Pedido
  agora : Nat
  gpio_joystick : Bool
  gpio_botao_a : Bool
  gpio_botao_b : Bool
  temperatura : ℚ
  temp_oled : List Char
  ip : List Char

/-- The body of `while (true)` (lines 142-239); `sleep_ms(10)` changes no
variable.  Returns the state after the pass and the pages written in it. -/
def tick (s : Estado) (e : Entrada) : Estado × List (List Char) :=
  let r := cyw43_arch_poll s e.pedidos
  let s1 := fase_botoes r.1 e.agora e.gpio_joystick e.gpio_botao_a e.gpio_botao_b
  let s2 := fase_temperatura s1 e.agora e.temperatura
  let s3 := fase_display s2 e.agora e.temp_oled e.ip
  let s4 := fase_buzzer s3 e.agora
  (renderizar s4, r.2)

/-- The state after a run of passes. -/
def executar (s : Estado) (entradas : List Entrada) : Estado :=
  entradas.foldl (fun s e => (tick s e).1) s

/-! ## The command table of the specification -/

/-- The nine rows of the HTTP command table as the specification words it:
the command string of the row and the assignment it names (`power` is
`led_ligado`, `color` is `cor_atual`, `emergency` is `emergencia`, and the
colours RED, GREEN, BLUE, YELLOW, CYAN, MAGENTA are `VERMELHO`, `VERDE`,
`AZUL`, `AMARELO`, `CIANO`, `LILAS`). -/
def tabela_http : Fin 9 → List Char × (Estado → Estado)
  | 0 => ("GET /led_on".toList, fun s => { s with led_ligado := true })
  | 1 => ("GET /led_off".toList, fun s => { s with led_ligado := false })
  | 2 => ("GET /color_red".toList, fun s => { s with cor_atual := VERMELHO })
  | 3 => ("GET /color_green".toList, fun s => { s with cor_atual := VERDE })
  | 4 => ("GET /color_blue".toList, fun s => { s with cor_atual := AZUL })
  | 5 => ("GET /color_yellow".toList, fun s => { s with cor_atual := AMARELO })
  | 6 => ("GET /color_cyan".toList, fun s => { s with cor_atual := CIANO })
  | 7 => ("GET /color_lilas".toList, fun s => { s with cor_atual := LILAS })
  | 8 => ("GET /alarm_off".toList, fun s => { s with emergencia := false })

/-- The request-target of an HTTP request: the second blank-separated token
of its request line (`GET <target> HTTP/1.1`). -/
def caminho_requisicao (requisicao : List Char) : List Char :=
  ((requisicao.dropWhile (fun c => c != ' ')).drop 1).takeWhile (fun c => c != ' ')

/-- The nine recognised command paths of the specification's table. -/
def caminhos_reconhecidos : List (List Char) :=
  ["/led_on".toList, "/led_off".toList, "/color_red".toList, "/color_green".toList,
   "/color_blue".toList, "/color_yellow".toList, "/color_cyan".toList,
   "/color_lilas".toList, "/alarm_off".toList]

/-- The status page `tcp_server_recv` writes when the state after the command
is `s` and the temperature text is `temp`. -/
def pagina_de (s : Estado) (temp : List Char) : List Char :=
  snprintf 1536 (html_formato (texto_led s) (texto_cor s) temp (texto_emergencia s))

/-! ## `strstr` finds exactly the substrings -/

theorem strstr_isSome_iff (palheiro agulha : List Char) :
    (strstr palheiro agulha).isSome = true ↔ agulha <:+: palheiro := by
  induction palheiro with
  | nil =>
    cases agulha with
    | nil => simp [strstr]
    | cons a as => simp [strstr]
  | cons c resto ih =>
    rw [List.infix_cons_iff, ← ih]
    by_cases h : agulha.isPrefixOf (c :: resto) = true
    · simp [strstr, h, List.isPrefixOf_iff_prefix.mp h]
    · have h2 : ¬ agulha <+: c :: resto := fun hp => h (List.isPrefixOf_iff_prefix.mpr hp)
      simp [strstr, h, h2]

theorem strstr_isSome_eq_false_iff (palheiro agulha : List Char) :
    (strstr palheiro agulha).isSome = false ↔ ¬ agulha <:+: palheiro := by
  rw [← strstr_isSome_iff]; simp

/-- The dispatch of `processar_requisicao` with each `strstr` test replaced
by the substring relation it decides. -/
theorem processar_requisicao_por_subcadeia (s : Estado) (req : List Char) :
    processar_requisicao s req =
      if "GET /led_on".toList <:+: req then { s with led_ligado := true }
      else if "GET /led_off".toList <:+: req then { s with led_ligado := false }
      else if "GET /color_red".toList <:+: req then { s with cor_atual := VERMELHO }
      else if "GET /color_green".toList <:+: req then { s with cor_atual := VERDE }
      else if "GET /color_blue".toList <:+: req then { s with cor_atual := AZUL }
      else if "GET /color_yellow".toList <:+: req then { s with cor_atual := AMARELO }
      else if "GET /color_cyan".toList <:+: req then { s with cor_atual := CIANO }
      else if "GET /color_lilas".toList <:+: req then { s with cor_atual := LILAS }
      else if "GET /alarm_off".toList <:+: req then { s with emergencia := false }
      else s := by
  unfold processar_requisicao
  simp only [strstr_isSome_iff]

/-- A request that contains the command string of row `i` and none of the
other eight is handled as row `i` says. -/
theorem processar_requisicao_linha (s : Estado) (req : List Char) (i : Fin 9)
    (hi : (tabela_http i).1 <:+: req)
    (hn : ∀ j : Fin 9, j ≠ i → ¬ (tabela_http j).1 <:+: req) :
    processar_requisicao s req = (tabela_http i).2 s := by
  have h0 := hn 0
  have h1 := hn 1
  have h2 := hn 2
  have h3 := hn 3
  have h4 := hn 4
  have h5 := hn 5
  have h6 := hn 6
  have h7 := hn 7
  have h8 := hn 8
  rw [processar_requisicao_por_subcadeia]
  fin_cases i <;> simp [tabela_http] at hi h0 h1 h2 h3 h4 h5 h6 h7 h8 ⊢ <;> simp [*]

/-! ## C1 - the command table -/

/-- C1: for each of the nine rows of the HTTP command table and every prior
state, `processar_requisicao` applied to a request that contains the row's
command string and none of the other eight command strings yields the prior
state with exactly the row's field set to the row's value; every other field
keeps its value. -/
theorem processar_requisicao_segue_tabela (s : Estado) (req : List Char) (i : Fin 9)
    (hi : (tabela_http i).1 <:+: req)
    (hn : ∀ j : Fin 9, j ≠ i → ¬ (tabela_http j).1 <:+: req) :
    processar_requisicao s req = (tabela_http i).2 s :=
  processar_requisicao_linha s req i hi hn

theorem processar_requisicao_segue_tabela_witness :
    (tabela_http 7).1 <:+: "GET /color_lilas HTTP/1.1".toList ∧
    (∀ j : Fin 9, j ≠ 7 → ¬ (tabela_http j).1 <:+: "GET /color_lilas HTTP/1.1".toList) ∧
    processar_requisicao estado_inicial "GET /color_lilas HTTP/1.1".toList =
      { estado_inicial with cor_atual := LILAS } := by
  have hi : (tabela_http 7).1 <:+: "GET /color_lilas HTTP/1.1".toList :=
    (strstr_isSome_iff _ _).mp (by decide)
  have hn : ∀ j : Fin 9, j ≠ 7 →
      ¬ (tabela_http j).1 <:+: "GET /color_lilas HTTP/1.1".toList := by
    intro j hj
    apply (strstr_isSome_eq_false_iff _ _).mp
    revert j
    decide
  exact ⟨hi, hn, processar_requisicao_segue_tabela estado_inicial _ 7 hi hn⟩

/-! ## C2 - requests without a command -/

/-- C2, as stated, fails: the request `GET /led_online HTTP/1.1` has the path
`/led_online`, which is none of the nine recognised paths, yet
`processar_requisicao` turns the LED on, because the request contains the
string `GET /led_on`. -/
theorem caminho_desconhecido_muda_estado :
    caminho_requisicao "GET /led_online HTTP/1.1".toList = "/led_online".toList ∧
    caminho_requisicao "GET /led_online HTTP/1.1".toList ∉ caminhos_reconhecidos ∧
    estado_inicial.led_ligado = false ∧
    (processar_requisicao estado_inicial "GET /led_online HTTP/1.1".toList).led_ligado
      = true := by
  decide

/-- C2, amended: for every state and every received buffer whose text contains
none of the nine command strings, `processar_requisicao` returns the state
unchanged and `tcp_server_recv` writes the status page of that unchanged
state. -/
theorem requisicao_sem_comando_nao_muda (s : Estado) (payload temp : List Char)
    (h : ∀ j : Fin 9, ¬ (tabela_http j).1 <:+: c_str payload) :
    processar_requisicao s (c_str payload) = s ∧
    tcp_server_recv s (some payload) temp = (s, some (pagina_de s temp)) := by
  have h0 := h 0
  have h1 := h 1
  have h2 := h 2
  have h3 := h 3
  have h4 := h 4
  have h5 := h 5
  have h6 := h 6
  have h7 := h 7
  have h8 := h 8
  simp only [tabela_http] at h0 h1 h2 h3 h4 h5 h6 h7 h8
  have e : processar_requisicao s (c_str payload) = s := by
    rw [processar_requisicao_por_subcadeia, if_neg h0, if_neg h1, if_neg h2, if_neg h3, if_neg h4,
      if_neg h5, if_neg h6, if_neg h7, if_neg h8]
  exact ⟨e, by simp only [tcp_server_recv, e, pagina_de]⟩

theorem requisicao_sem_comando_nao_muda_witness :
    (∀ j : Fin 9, ¬ (tabela_http j).1 <:+: c_str "GET /nonexistent HTTP/1.1".toList) ∧
    processar_requisicao estado_inicial (c_str "GET /nonexistent HTTP/1.1".toList)
      = estado_inicial ∧
    tcp_server_recv estado_inicial (some "GET /nonexistent HTTP/1.1".toList) "25.00".toList
      = (estado_inicial, some (pagina_de estado_inicial "25.00".toList)) := by
  have h : ∀ j : Fin 9, ¬ (tabela_http j).1 <:+: c_str "GET /nonexistent HTTP/1.1".toList := by
    intro j
    apply (strstr_isSome_eq_false_iff _ _).mp
    revert j
    decide
  exact ⟨h, requisicao_sem_comando_nao_muda estado_inicial _ _ h⟩

/-! ## C4 - acknowledging the alarm over HTTP -/

/-- C4: for a request that contains `GET /alarm_off` and none of the other
eight command strings, `processar_requisicao` on a state with
`emergencia = true` gives `emergencia = false` and changes nothing else; on a
state with `emergencia = false` it returns the very same state; so processing
the request twice equals processing it once. -/
theorem alarm_off_desliga_e_idempotente (s : Estado) (req : List Char)
    (hi : "GET /alarm_off".toList <:+: req)
    (hn : ∀ j : Fin 9, j ≠ 8 → ¬ (tabela_http j).1 <:+: req) :
    (s.emergencia = true →
      (processar_requisicao s req).emergencia = false ∧
      (processar_requisicao s req).led_ligado = s.led_ligado ∧
      (processar_requisicao s req).cor_atual = s.cor_atual ∧
      processar_requisicao s req = { s with emergencia := false }) ∧
    (s.emergencia = false → processar_requisicao s req = s) ∧
    processar_requisicao (processar_requisicao s req) req = processar_requisicao s req := by
  have e : ∀ s' : Estado, processar_requisicao s' req = { s' with emergencia := false } :=
    fun s' => processar_requisicao_linha s' req 8 hi hn
  refine ⟨fun _ => ?_, fun h => ?_, ?_⟩
  · simp [e]
  · rw [e]
    cases s
    simp_all
  · simp [e]

theorem alarm_off_desliga_e_idempotente_witness :
    processar_requisicao { estado_inicial with emergencia := true, led_ligado := true }
        "GET /alarm_off HTTP/1.1".toList
      = { estado_inicial with emergencia := false, led_ligado := true } ∧
    processar_requisicao estado_inicial "GET /alarm_off HTTP/1.1".toList = estado_inicial := by
  have hi : "GET /alarm_off".toList <:+: "GET /alarm_off HTTP/1.1".toList :=
    (strstr_isSome_iff _ _).mp (by decide)
  have hn : ∀ j : Fin 9, j ≠ 8 →
      ¬ (tabela_http j).1 <:+: "GET /alarm_off HTTP/1.1".toList := by
    intro j hj
    apply (strstr_isSome_eq_false_iff _ _).mp
    revert j
    decide
  exact ⟨((alarm_off_desliga_e_idempotente
      { estado_inicial with emergencia := true, led_ligado := true } _ hi hn).1 rfl).2.2.2,
    (alarm_off_desliga_e_idempotente estado_inicial _ hi hn).2.1 rfl⟩

/-! ## C5 - only the temperature check raises the alarm -/

theorem processar_requisicao_emergencia_false (s : Estado) (req : List Char)
    (h : s.emergencia = false) : (processar_requisicao s req).emergencia = false := by
  unfold processar_requisicao
  split_ifs <;> simp [h]

theorem tcp_server_recv_emergencia_false (s : Estado) (p : Option (List Char))
    (temp : List Char) (h : s.emergencia = false) :
    (tcp_server_recv s p temp).1.emergencia = false := by
  cases p with
  | none => simpa [tcp_server_recv] using h
  | some payload =>
    simpa [tcp_server_recv] using processar_requisicao_emergencia_false s _ h

theorem cyw43_arch_poll_emergencia_false (pedidos : List Pedido) :
    ∀ (s : Estado) (paginas : List (List Char)), s.emergencia = false →
      (pedidos.foldl
        (fun acc pedido =>
          let r := tcp_server_recv acc.1 pedido.p pedido.temp
          (r.1, acc.2 ++ r.2.toList))
        (s, paginas)).1.emergencia = false := by
  induction pedidos with
  | nil => intro s paginas h; simpa using h
  | cons q qs ih =>
    intro s paginas h
    rw [List.foldl_cons]
    exact ih _ _ (tcp_server_recv_emergencia_false s q.p q.temp h)

theorem verificar_botoes_emergencia_false (s : Estado) (gj ga gb : Bool)
    (h : s.emergencia = false) : (verificar_botoes s gj ga gb).emergencia = false := by
  unfold verificar_botoes
  simp only []
  split_ifs <;> simp [h]

theorem fase_botoes_emergencia_false (s : Estado) (agora : Nat) (gj ga gb : Bool)
    (h : s.emergencia = false) : (fase_botoes s agora gj ga gb).emergencia = false := by
  unfold fase_botoes
  split_ifs
  · exact verificar_botoes_emergencia_false s gj ga gb h
  · exact h

theorem verificar_temperatura_emergencia_false (s : Estado) (temperatura : ℚ)
    (h : s.emergencia = false) (ht : ¬ temperatura > 40) :
    (verificar_temperatura s temperatura).emergencia = false := by
  simp [verificar_temperatura, ht, h]

theorem fase_temperatura_emergencia_false (s : Estado) (agora : Nat) (temperatura : ℚ)
    (h : s.emergencia = false) (ht : ¬ temperatura > 40) :
    (fase_temperatura s agora temperatura).emergencia = false := by
  unfold fase_temperatura
  split_ifs
  · exact verificar_temperatura_emergencia_false s temperatura h ht
  · exact h

theorem fase_display_emergencia (s : Estado) (agora : Nat) (temp ip : List Char) :
    (fase_display s agora temp ip).emergencia = s.emergencia := by
  unfold fase_display atualizar_display
  split_ifs <;> rfl

theorem fase_buzzer_emergencia (s : Estado) (agora : Nat) :
    (fase_buzzer s agora).emergencia = s.emergencia := by
  unfold fase_buzzer
  split_ifs <;> rfl

theorem renderizar_emergencia (s : Estado) : (renderizar s).emergencia = s.emergencia := rfl

/-- C5: from a state with `emergencia = false`, no HTTP request (through
`processar_requisicao` or the whole `tcp_server_recv`), no button pass
(whatever the three pin levels and the three previous-pressed flags held in the
state) and no temperature check whose sample is not above 40 makes
`emergencia` true; hence a whole pass of the loop whose temperature sample is
not above 40 leaves `emergencia = false`. -/
theorem emergencia_so_sobe_pela_temperatura (s : Estado) (h : s.emergencia = false) :
    (∀ req, (processar_requisicao s req).emergencia = false) ∧
    (∀ p temp, (tcp_server_recv s p temp).1.emergencia = false) ∧
    (∀ gj ga gb, (verificar_botoes s gj ga gb).emergencia = false) ∧
    (∀ agora gj ga gb, (fase_botoes s agora gj ga gb).emergencia = false) ∧
    (∀ temperatura : ℚ, ¬ temperatura > 40 →
      (verificar_temperatura s temperatura).emergencia = false) ∧
    (∀ agora (temperatura : ℚ), ¬ temperatura > 40 →
      (fase_temperatura s agora temperatura).emergencia = false) ∧
    (∀ e : Entrada, ¬ e.temperatura > 40 → (tick s e).1.emergencia = false) := by
  refine ⟨fun req => processar_requisicao_emergencia_false s req h,
    fun p temp => tcp_server_recv_emergencia_false s p temp h,
    fun gj ga gb => verificar_botoes_emergencia_false s gj ga gb h,
    fun agora gj ga gb => fase_botoes_emergencia_false s agora gj ga gb h,
    fun t ht => verificar_temperatura_emergencia_false s t h ht,
    fun agora t ht => fase_temperatura_emergencia_false s agora t h ht,
    fun e ht => ?_⟩
  simp only [tick]
  rw [renderizar_emergencia, fase_buzzer_emergencia, fase_display_emergencia]
  apply fase_temperatura_emergencia_false _ _ _ _ ht
  apply fase_botoes_emergencia_false
  exact cyw43_arch_poll_emergencia_false e.pedidos s [] h

theorem emergencia_so_sobe_pela_temperatura_witness :
    estado_inicial.emergencia = false ∧
    (processar_requisicao estado_inicial "GET /led_on HTTP/1.1".toList).emergencia = false ∧
    (verificar_botoes estado_inicial false false false).emergencia = false ∧
    (verificar_temperatura estado_inicial 40).emergencia = false :=
  ⟨rfl, (emergencia_so_sobe_pela_temperatura estado_inicial rfl).1 _,
    (emergencia_so_sobe_pela_temperatura estado_inicial rfl).2.2.1 _ _ _,
    (emergencia_so_sobe_pela_temperatura estado_inicial rfl).2.2.2.2.1 40 (by norm_num)⟩

/-! ## C6 and C10 - what the render step shows -/

/-- What `renderizar` drives: the levels of `LED_R`, `LED_G`, `LED_B` and the
25 words sent to the matrix. -/
def saida_render (s : Estado) : (Bool × Bool × Bool) × List Nat :=
  (((renderizar s).led_r, (renderizar s).led_g, (renderizar s).led_b), (renderizar s).matriz)

/-- C6: any two states with `emergencia = true` render identically, whatever
their `led_ligado` and `cor_atual`: the three RGB LED channels are off and the
matrix receives the `!` glyph drawn with `(r, g, b) = (32, 0, 0)`. -/
theorem render_em_emergencia (s1 s2 : Estado)
    (h1 : s1.emergencia = true) (h2 : s2.emergencia = true) :
    saida_render s1 = saida_render s2 ∧
    saida_render s1 = ((false, false, false), configurar_matriz padrao_exclamacao 32 0 0) := by
  have e : ∀ s : Estado, s.emergencia = true →
      saida_render s = ((false, false, false), configurar_matriz padrao_exclamacao 32 0 0) := by
    intro s h
    simp [saida_render, renderizar, configurar_led_rgb, h]
  exact ⟨(e s1 h1).trans (e s2 h2).symm, e s1 h1⟩

theorem render_em_emergencia_witness :
    saida_render { estado_inicial with emergencia := true, led_ligado := true,
                                       cor_atual := AZUL } =
      saida_render { estado_inicial with emergencia := true } ∧
    saida_render { estado_inicial with emergencia := true, led_ligado := true,
                                       cor_atual := AZUL } =
      ((false, false, false), configurar_matriz padrao_exclamacao 32 0 0) :=
  render_em_emergencia
    { estado_inicial with emergencia := true, led_ligado := true, cor_atual := AZUL }
    { estado_inicial with emergencia := true } rfl rfl

/-- C10: with `emergencia = false` and the LED on, each of the six colours
renders as the colour table says: the matrix receives the `V` glyph with the
tint of the colour and each RGB LED channel is on exactly when that tint
channel is non-zero; with the LED off the three channels are off and the
matrix receives the `V` glyph with tint `(0, 0, 0)`, whatever the colour. -/
theorem render_sem_emergencia (s : Estado) (h : s.emergencia = false) :
    (s.led_ligado = true →
      (s.cor_atual = VERMELHO →
        saida_render s = ((true, false, false), configurar_matriz padrao_V 32 0 0)) ∧
      (s.cor_atual = VERDE →
        saida_render s = ((false, true, false), configurar_matriz padrao_V 0 32 0)) ∧
      (s.cor_atual = AZUL →
        saida_render s = ((false, false, true), configurar_matriz padrao_V 0 0 32)) ∧
      (s.cor_atual = AMARELO →
        saida_render s = ((true, true, false), configurar_matriz padrao_V 32 32 0)) ∧
      (s.cor_atual = CIANO →
        saida_render s = ((false, true, true), configurar_matriz padrao_V 0 32 32)) ∧
      (s.cor_atual = LILAS →
        saida_render s = ((true, false, true), configurar_matriz padrao_V 32 0 32))) ∧
    (s.led_ligado = false →
      saida_render s = ((false, false, false), configurar_matriz padrao_V 0 0 0)) := by
  refine ⟨fun hl => ⟨?_, ?_, ?_, ?_, ?_, ?_⟩, fun hl => ?_⟩ <;>
    first
    | (intro hc
       simp [saida_render, renderizar, configurar_led_rgb, switch_cor, h, hl, hc,
         VERMELHO, VERDE, AZUL, AMARELO, CIANO, LILAS])
    | simp [saida_render, renderizar, configurar_led_rgb, h, hl]

theorem render_sem_emergencia_witness :
    saida_render { estado_inicial with led_ligado := true, cor_atual := CIANO } =
      ((false, true, true), configurar_matriz padrao_V 0 32 32) ∧
    saida_render { estado_inicial with cor_atual := CIANO } =
      ((false, false, false), configurar_matriz padrao_V 0 0 0) :=
  ⟨((render_sem_emergencia { estado_inicial with led_ligado := true, cor_atual := CIANO }
      rfl).1 rfl).2.2.2.2.1 rfl,
    (render_sem_emergencia { estado_inicial with cor_atual := CIANO } rfl).2 rfl⟩

/-! ## C7 - the colour cycle -/

/-- C7: for each of the six colour values, six applications of the joystick's
colour advance return the starting colour and no smaller positive number of
applications does; the advance goes VERMELHO, VERDE, AZUL, AMARELO, CIANO,
LILAS and back to VERMELHO, and its result is always one of the six values. -/
theorem proxima_cor_ciclo (c : Cor) (hc : c < 6) :
    proxima_cor^[6] c = c ∧
    (∀ k, 0 < k → k < 6 → proxima_cor^[k] c ≠ c) ∧
    proxima_cor c < 6 ∧
    proxima_cor VERMELHO = VERDE ∧ proxima_cor VERDE = AZUL ∧
    proxima_cor AZUL = AMARELO ∧ proxima_cor AMARELO = CIANO ∧
    proxima_cor CIANO = LILAS ∧ proxima_cor LILAS = VERMELHO := by
  refine ⟨?_, ?_, ?_, by decide, by decide, by decide, by decide, by decide, by decide⟩
  · interval_cases c <;> decide
  · intro k hk0 hk6
    interval_cases c <;> interval_cases k <;> decide
  · exact Nat.mod_lt _ (by decide)

theorem proxima_cor_ciclo_witness :
    AMARELO < 6 ∧ proxima_cor^[6] AMARELO = AMARELO ∧
    (∀ k, 0 < k → k < 6 → proxima_cor^[k] AMARELO ≠ AMARELO) :=
  ⟨by decide, (proxima_cor_ciclo AMARELO (by decide)).1,
    (proxima_cor_ciclo AMARELO (by decide)).2.1⟩

/-! ## C8 - one action per rising edge -/

/-- Number of rising edges in a sequence of sampled pressed states, `anterior`
being the pressed state before the first sample. -/
def bordas_de_subida (anterior : Bool) : List Bool → Nat
  | [] => 0
  | x :: xs => (if x && !anterior then 1 else 0) + bordas_de_subida x xs

/-- Consecutive button passes.  A sample is the pressed state of the joystick,
of Button A and of Button B, in that order; the pins are active low, so the
level `gpio_get` returns is the negation of the pressed state. -/
def passes_botoes (s : Estado) (amostras : List (Bool × Bool × Bool)) : Estado :=
  amostras.foldl (fun s a => verificar_botoes s (!a.1) (!a.2.1) (!a.2.2)) s

/-- One button pass: each flag becomes the pressed state just sampled and each
action is taken exactly when the button is pressed and its flag was clear. -/
theorem verificar_botoes_passo (s : Estado) (j a b : Bool) :
    verificar_botoes s (!j) (!a) (!b) =
      { s with
        cor_atual := if j && !s.botao_joystick_pressionado then proxima_cor s.cor_atual
                     else s.cor_atual
        led_ligado := if a && !s.botao_a_pressionado then !s.led_ligado else s.led_ligado
        emergencia := if b && !s.botao_b_pressionado then false else s.emergencia
        botao_joystick_pressionado := j
        botao_a_pressionado := a
        botao_b_pressionado := b } := by
  obtain ⟨cor, led, em, t1, t2, t3, t4, fj, fa, fb, bz, lr, lg, lb, mz, ol⟩ := s
  cases j <;> cases a <;> cases b <;> cases fj <;> cases fa <;> cases fb <;>
    simp [verificar_botoes]

theorem iterate_ite_add {α : Type} (f : α → α) (c : Bool) (n : Nat) (x : α) :
    f^[(if c then 1 else 0) + n] x = f^[n] (if c then f x else x) := by
  cases c <;> simp [Nat.add_comm 1 n, Function.iterate_succ_apply]

theorem passes_botoes_bordas (amostras : List (Bool × Bool × Bool)) :
    ∀ s : Estado,
      (passes_botoes s amostras).cor_atual =
        proxima_cor^[bordas_de_subida s.botao_joystick_pressionado
          (amostras.map (fun a => a.1))] s.cor_atual ∧
      (passes_botoes s amostras).led_ligado =
        (fun l => !l)^[bordas_de_subida s.botao_a_pressionado
          (amostras.map (fun a => a.2.1))] s.led_ligado ∧
      (passes_botoes s amostras).emergencia =
        (fun _ => false)^[bordas_de_subida s.botao_b_pressionado
          (amostras.map (fun a => a.2.2))] s.emergencia := by
  induction amostras with
  | nil => intro s; simp [passes_botoes, bordas_de_subida]
  | cons a as ih =>
    intro s
    have e : passes_botoes s (a :: as) =
        passes_botoes (verificar_botoes s (!a.1) (!a.2.1) (!a.2.2)) as := rfl
    rw [e, verificar_botoes_passo]
    obtain ⟨h1, h2, h3⟩ := ih
      { s with
        cor_atual := if a.1 && !s.botao_joystick_pressionado then proxima_cor s.cor_atual
                     else s.cor_atual
        led_ligado := if a.2.1 && !s.botao_a_pressionado then !s.led_ligado else s.led_ligado
        emergencia := if a.2.2 && !s.botao_b_pressionado then false else s.emergencia
        botao_joystick_pressionado := a.1
        botao_a_pressionado := a.2.1
        botao_b_pressionado := a.2.2 }
    simp only [List.map_cons, bordas_de_subida, iterate_ite_add]
    exact ⟨h1, h2, h3⟩

theorem bordas_de_subida_mantido (n : Nat) (resto : List Bool) :
    bordas_de_subida true (List.replicate n true ++ resto) = bordas_de_subida true resto := by
  induction n with
  | zero => rfl
  | succ n ih =>
    show (if true && !true then 1 else 0) +
      bordas_de_subida true (List.replicate n true ++ resto) = _
    rw [ih]
    simp

theorem bordas_de_subida_pressionado (n : Nat) (resto : List Bool) :
    bordas_de_subida false (List.replicate (n + 1) true ++ resto) =
      1 + bordas_de_subida true resto := by
  show (if true && !false then 1 else 0) +
    bordas_de_subida true (List.replicate n true ++ resto) = _
  rw [bordas_de_subida_mantido]
  simp

/-- C8: starting with the three previous-pressed flags clear, after any
sequence of button passes the colour has been advanced once per rising edge of
the joystick's sampled pressed state, the LED toggled once per rising edge of
Button A's, and the emergency cleared once per rising edge of Button B's.  In
particular Button A held pressed over any number of consecutive passes toggles
the LED once, and releasing it and pressing it again toggles it a second
time. -/
theorem uma_acao_por_borda (s : Estado) (amostras : List (Bool × Bool × Bool))
    (hj : s.botao_joystick_pressionado = false) (ha : s.botao_a_pressionado = false)
    (hb : s.botao_b_pressionado = false) :
    ((passes_botoes s amostras).cor_atual =
        proxima_cor^[bordas_de_subida false (amostras.map (fun a => a.1))] s.cor_atual ∧
      (passes_botoes s amostras).led_ligado =
        (fun l => !l)^[bordas_de_subida false (amostras.map (fun a => a.2.1))] s.led_ligado ∧
      (passes_botoes s amostras).emergencia =
        (fun _ => false)^[bordas_de_subida false (amostras.map (fun a => a.2.2))]
          s.emergencia) ∧
    (∀ n : Nat,
      (passes_botoes s (List.replicate (n + 1) (false, true, false))).led_ligado
        = !s.led_ligado) ∧
    (∀ n m : Nat,
      (passes_botoes s (List.replicate (n + 1) (false, true, false) ++
        (false, false, false) :: List.replicate (m + 1) (false, true, false))).led_ligado
        = s.led_ligado) := by
  have g := passes_botoes_bordas
  refine ⟨?_, fun n => ?_, fun n m => ?_⟩
  · have h := g amostras s
    rw [hj, ha, hb] at h
    exact h
  · have h := (g (List.replicate (n + 1) (false, true, false)) s).2.1
    have e := bordas_de_subida_pressionado n []
    rw [List.append_nil] at e
    rw [ha, List.map_replicate, e] at h
    rw [h]
    rfl
  · have h := (g (List.replicate (n + 1) (false, true, false) ++
        (false, false, false) :: List.replicate (m + 1) (false, true, false)) s).2.1
    have e2 := bordas_de_subida_pressionado m []
    rw [List.append_nil] at e2
    have e : bordas_de_subida false
        (List.replicate (n + 1) true ++ false :: List.replicate (m + 1) true) = 2 := by
      rw [bordas_de_subida_pressionado]
      show 1 + ((if false && !true then 1 else 0) +
        bordas_de_subida false (List.replicate (m + 1) true)) = 2
      rw [e2]
      rfl
    rw [ha, List.map_append, List.map_cons, List.map_replicate, List.map_replicate, e] at h
    rw [h]
    cases s.led_ligado <;> rfl

theorem uma_acao_por_borda_witness :
    (passes_botoes estado_inicial
        [(false, true, false), (false, true, false), (false, true, false)]).led_ligado = true ∧
    (passes_botoes estado_inicial
        [(false, true, false), (false, true, false), (false, false, false),
         (false, true, false)]).led_ligado = false :=
  ⟨(uma_acao_por_borda estado_inicial [] rfl rfl rfl).2.1 2,
    (uma_acao_por_borda estado_inicial [] rfl rfl rfl).2.2 1 0⟩

/-! ## C9 - the status page shows the state after the command -/

set_option maxRecDepth 100000 in
theorem html_cabecalho_length : html_cabecalho.length = 911 := by decide

theorem html_formato_length (led cor temp emerg : List Char) :
    (html_formato led cor temp emerg).length =
      1006 + led.length + cor.length + temp.length + emerg.length := by
  simp only [html_formato, List.length_append, html_cabecalho_length]
  have e1 : "</p><p class=s>Cor: ".toList.length = 20 := by decide
  have e2 : "</p><p class=s>Temperatura: ".toList.length = 28 := by decide
  have e3 : "C</p><p class=s>Emerg\xc3\xaancia: ".toList.length = 29 := by decide
  have e4 : "</p></body></html>".toList.length = 18 := by decide
  rw [e1, e2, e3, e4]
  omega

theorem texto_led_length (s : Estado) : (texto_led s).length ≤ 9 := by
  unfold texto_led
  split_ifs <;> decide

theorem texto_cor_length (s : Estado) : (texto_cor s).length ≤ 8 := by
  unfold texto_cor
  split_ifs <;> decide

theorem texto_emergencia_length (s : Estado) : (texto_emergencia s).length ≤ 9 := by
  unfold texto_emergencia
  split_ifs <;> decide

/-- With a temperature text of at most 503 bytes the page fits the 1536-byte
buffer and nothing is cut. -/
theorem pagina_de_inteira (s : Estado) (temp : List Char) (ht : temp.length ≤ 503) :
    pagina_de s temp =
      html_formato (texto_led s) (texto_cor s) temp (texto_emergencia s) := by
  unfold pagina_de snprintf
  apply List.take_of_length_le
  rw [html_formato_length]
  have h1 := texto_led_length s
  have h2 := texto_cor_length s
  have h3 := texto_emergencia_length s
  omega

set_option maxRecDepth 100000 in
/-- The format string, cut at its first conversion, ends with the opening of
the LED paragraph; the 895 bytes before it are status line, headers, style
sheet and the nine buttons. -/
theorem html_cabecalho_termina_em_led :
    html_cabecalho = List.take 895 html_cabecalho ++ "<p class=s>LED: ".toList := by
  decide

/-- The formatted page, written out field by field. -/
theorem html_formato_campos (led cor temp emerg : List Char) :
    html_formato led cor temp emerg =
      List.take 895 html_cabecalho ++
        "<p class=s>LED: ".toList ++ led ++
        "</p><p class=s>Cor: ".toList ++ cor ++
        "</p><p class=s>Temperatura: ".toList ++ temp ++
        "C</p><p class=s>Emerg\xc3\xaancia: ".toList ++ emerg ++
        "</p></body></html>".toList := by
  unfold html_formato
  rw [← html_cabecalho_termina_em_led]

/-- C9: for every state, every received buffer and every temperature text
(short enough for the page to fit its buffer, as every `%.2f` rendering of a
`float` is), the page `tcp_server_recv` writes is the fixed 895-byte head
(status line, headers, style sheet, buttons) followed by four paragraphs, in
this order: `LED: ` with LIGADO when `led_ligado` is true after the request's
command and DESLIGADO otherwise; `Cor: ` with the display name of `cor_atual`
after the command (Vermelho, Verde, Azul, Amarelo, Ciano, Lilás for the six
colours); `Temperatura: ` with the temperature text; `Emergência: ` with LIGADA
when `emergencia` is true after the command and DESLIGADA otherwise.  From the
boot state `GET /color_blue` sets the colour to AZUL and the page reads
`LED: DESLIGADO` and `Cor: Azul`; a following `GET /led_on` gives a page
reading `LED: LIGADO` and `Cor: Azul`. -/
theorem pagina_mostra_estado_apos_comando (s : Estado) (payload temp : List Char)
    (ht : temp.length ≤ 503) :
    (tcp_server_recv s (some payload) temp =
      (processar_requisicao s (c_str payload),
        some (List.take 895 html_cabecalho ++
          "<p class=s>LED: ".toList ++
          (if (processar_requisicao s (c_str payload)).led_ligado then "LIGADO".toList
           else "DESLIGADO".toList) ++
          "</p><p class=s>Cor: ".toList ++
          texto_cor (processar_requisicao s (c_str payload)) ++
          "</p><p class=s>Temperatura: ".toList ++ temp ++
          "C</p><p class=s>Emerg\xc3\xaancia: ".toList ++
          (if (processar_requisicao s (c_str payload)).emergencia then "LIGADA".toList
           else "DESLIGADA".toList) ++
          "</p></body></html>".toList))) ∧
    (∀ s1 : Estado,
      (s1.cor_atual = VERMELHO → texto_cor s1 = "Vermelho".toList) ∧
      (s1.cor_atual = VERDE → texto_cor s1 = "Verde".toList) ∧
      (s1.cor_atual = AZUL → texto_cor s1 = "Azul".toList) ∧
      (s1.cor_atual = AMARELO → texto_cor s1 = "Amarelo".toList) ∧
      (s1.cor_atual = CIANO → texto_cor s1 = "Ciano".toList) ∧
      (s1.cor_atual = LILAS → texto_cor s1 = "Lil\xc3\xa1s".toList)) ∧
    tcp_server_recv estado_inicial (some "GET /color_blue HTTP/1.1".toList) temp =
      ({ estado_inicial with cor_atual := AZUL },
        some (List.take 895 html_cabecalho ++
          "<p class=s>LED: DESLIGADO</p><p class=s>Cor: Azul</p><p class=s>Temperatura: ".toList
          ++ temp ++
          "C</p><p class=s>Emerg\xc3\xaancia: DESLIGADA</p></body></html>".toList)) ∧
    tcp_server_recv { estado_inicial with cor_atual := AZUL }
        (some "GET /led_on HTTP/1.1".toList) temp =
      ({ estado_inicial with cor_atual := AZUL, led_ligado := true },
        some (List.take 895 html_cabecalho ++
          "<p class=s>LED: LIGADO</p><p class=s>Cor: Azul</p><p class=s>Temperatura: ".toList
          ++ temp ++
          "C</p><p class=s>Emerg\xc3\xaancia: DESLIGADA</p></body></html>".toList)) := by
  have g : ∀ (s0 : Estado) (pl : List Char), tcp_server_recv s0 (some pl) temp =
      (processar_requisicao s0 (c_str pl),
        some (html_formato (texto_led (processar_requisicao s0 (c_str pl)))
          (texto_cor (processar_requisicao s0 (c_str pl))) temp
          (texto_emergencia (processar_requisicao s0 (c_str pl))))) := by
    intro s0 pl
    rw [← pagina_de_inteira _ temp ht]
    rfl
  refine ⟨?_, fun s1 => ⟨?_, ?_, ?_, ?_, ?_, ?_⟩, ?_, ?_⟩
  · rw [g, html_formato_campos]
    rfl
  · intro h; simp [texto_cor, h]
  · intro h; simp [texto_cor, h, VERMELHO, VERDE]
  · intro h; simp [texto_cor, h, VERMELHO, VERDE, AZUL]
  · intro h; simp [texto_cor, h, VERMELHO, VERDE, AZUL, AMARELO]
  · intro h; simp [texto_cor, h, VERMELHO, VERDE, AZUL, AMARELO, CIANO]
  · intro h; simp [texto_cor, h, VERMELHO, VERDE, AZUL, AMARELO, CIANO, LILAS]
  · rw [g, html_formato_campos]
    have e : processar_requisicao estado_inicial (c_str "GET /color_blue HTTP/1.1".toList)
        = { estado_inicial with cor_atual := AZUL } := by decide
    rw [e]
    have e1 : texto_led { estado_inicial with cor_atual := AZUL } = "DESLIGADO".toList := rfl
    have e2 : texto_cor { estado_inicial with cor_atual := AZUL } = "Azul".toList := rfl
    have e3 : texto_emergencia { estado_inicial with cor_atual := AZUL }
        = "DESLIGADA".toList := rfl
    rw [e1, e2, e3]
    simp only [List.append_assoc]
    rfl
  · rw [g, html_formato_campos]
    have e : processar_requisicao { estado_inicial with cor_atual := AZUL }
        (c_str "GET /led_on HTTP/1.1".toList)
        = { estado_inicial with cor_atual := AZUL, led_ligado := true } := by decide
    rw [e]
    have e1 : texto_led { estado_inicial with cor_atual := AZUL, led_ligado := true }
        = "LIGADO".toList := rfl
    have e2 : texto_cor { estado_inicial with cor_atual := AZUL, led_ligado := true }
        = "Azul".toList := rfl
    have e3 : texto_emergencia { estado_inicial with cor_atual := AZUL, led_ligado := true }
        = "DESLIGADA".toList := rfl
    rw [e1, e2, e3]
    simp only [List.append_assoc]
    rfl

theorem pagina_mostra_estado_apos_comando_witness :
    "25.31".toList.length ≤ 503 ∧
    tcp_server_recv estado_inicial (some "GET /color_blue HTTP/1.1".toList) "25.31".toList =
      ({ estado_inicial with cor_atual := AZUL },
        some (List.take 895 html_cabecalho ++
          "<p class=s>LED: DESLIGADO</p><p class=s>Cor: Azul</p><p class=s>Temperatura: ".toList
          ++ "25.31".toList ++
          "C</p><p class=s>Emerg\xc3\xaancia: DESLIGADA</p></body></html>".toList)) :=
  ⟨by decide,
    (pagina_mostra_estado_apos_comando estado_inicial [] "25.31".toList (by decide)).2.2.1⟩

/-! ## C3 - the emergency latch -/

/-- A request the dispatch handles as the alarm-off command: it contains
`GET /alarm_off` and none of the eight command strings tested before it. -/
def pedido_alarm_off (req : List Char) : Prop :=
  "GET /alarm_off".toList <:+: req ∧ ∀ j : Fin 9, j ≠ 8 → ¬ (tabela_http j).1 <:+: req

instance (req : List Char) : Decidable (pedido_alarm_off req) := by
  unfold pedido_alarm_off
  infer_instance

/-- Button B is detected as pressed in the pass that starts in state `s` and
reads `e`: the button block runs (line 146) and the test of line 181 holds. -/
def botao_b_detectado (s : Estado) (e : Entrada) : Bool :=
  decide (decorrido e.agora s.ultimo_botao ≥ 10) && !e.gpio_botao_b && !s.botao_b_pressionado

/-- A run of passes from state `s` with no acknowledgment: no buffer delivered
is an alarm-off request and Button B is never detected as pressed. -/
def sem_reconhecimento : Estado → List Entrada → Prop
  | _, [] => True
  | s, e :: es =>
    (∀ q ∈ e.pedidos, ∀ payload ∈ q.p, ¬ pedido_alarm_off (c_str payload)) ∧
    botao_b_detectado s e = false ∧
    sem_reconhecimento (tick s e).1 es

theorem processar_requisicao_emergencia_true (s : Estado) (req : List Char)
    (h : s.emergencia = true) (hna : ¬ pedido_alarm_off req) :
    (processar_requisicao s req).emergencia = true := by
  rw [processar_requisicao_por_subcadeia]
  split_ifs with h0 h1 h2 h3 h4 h5 h6 h7 h8
  all_goals first
    | exact h
    | (exfalso
       apply hna
       refine ⟨h8, fun j hj => ?_⟩
       fin_cases j
       · exact h0
       · exact h1
       · exact h2
       · exact h3
       · exact h4
       · exact h5
       · exact h6
       · exact h7
       · exact absurd rfl hj)

theorem processar_requisicao_botoes (s : Estado) (req : List Char) :
    (processar_requisicao s req).ultimo_botao = s.ultimo_botao ∧
    (processar_requisicao s req).botao_b_pressionado = s.botao_b_pressionado := by
  unfold processar_requisicao
  split_ifs <;> exact ⟨rfl, rfl⟩

/-- A property of the state that every delivered buffer preserves holds after
the network poll. -/
theorem cyw43_arch_poll_preserva (P : Estado → Prop) (pedidos : List Pedido)
    (hp : ∀ q ∈ pedidos, ∀ s, P s → P (tcp_server_recv s q.p q.temp).1) :
    ∀ (s : Estado) (paginas : List (List Char)), P s →
      P (pedidos.foldl
        (fun acc pedido =>
          let r := tcp_server_recv acc.1 pedido.p pedido.temp
          (r.1, acc.2 ++ r.2.toList))
        (s, paginas)).1 := by
  induction pedidos with
  | nil => intro s paginas h; exact h
  | cons q qs ih =>
    intro s paginas h
    rw [List.foldl_cons]
    exact ih (fun q' hq' => hp q' (List.mem_cons_of_mem _ hq')) _ _
      (hp q (List.mem_cons_self _ _) s h)

theorem fase_botoes_emergencia (s : Estado) (agora : Nat) (gj ga gb : Bool) :
    (fase_botoes s agora gj ga gb).emergencia =
      if (decide (decorrido agora s.ultimo_botao ≥ 10) && !gb && !s.botao_b_pressionado) = true
      then false else s.emergencia := by
  have e := verificar_botoes_passo s (!gj) (!ga) (!gb)
  simp only [Bool.not_not] at e
  unfold fase_botoes
  by_cases hg : decorrido agora s.ultimo_botao ≥ 10
  · rw [if_pos hg]
    show (verificar_botoes s gj ga gb).emergencia = _
    rw [e]
    simp [hg]
  · rw [if_neg hg]
    simp [hg]

theorem fase_temperatura_emergencia_true (s : Estado) (agora : Nat) (temperatura : ℚ)
    (h : s.emergencia = true) : (fase_temperatura s agora temperatura).emergencia = true := by
  unfold fase_temperatura verificar_temperatura
  split_ifs <;> first | rfl | exact h

theorem tick_mantem_emergencia (s : Estado) (e : Entrada) (h : s.emergencia = true)
    (hq : ∀ q ∈ e.pedidos, ∀ payload ∈ q.p, ¬ pedido_alarm_off (c_str payload))
    (hb : botao_b_detectado s e = false) : (tick s e).1.emergencia = true := by
  have hpoll := cyw43_arch_poll_preserva
    (fun x => x.emergencia = true ∧ x.ultimo_botao = s.ultimo_botao ∧
      x.botao_b_pressionado = s.botao_b_pressionado) e.pedidos
    (by
      intro q hqm x hx
      cases hp : q.p with
      | none => simpa [tcp_server_recv] using hx
      | some payload =>
        have hna := hq q hqm payload (by simp [hp])
        have hfr := processar_requisicao_botoes x (c_str payload)
        exact ⟨processar_requisicao_emergencia_true x _ hx.1 hna,
          hfr.1.trans hx.2.1, hfr.2.trans hx.2.2⟩)
    s [] ⟨h, rfl, rfl⟩
  simp only [tick]
  rw [renderizar_emergencia, fase_buzzer_emergencia, fase_display_emergencia]
  apply fase_temperatura_emergencia_true
  rw [fase_botoes_emergencia]
  have hpoll' : (cyw43_arch_poll s e.pedidos).1.emergencia = true ∧
      (cyw43_arch_poll s e.pedidos).1.ultimo_botao = s.ultimo_botao ∧
      (cyw43_arch_poll s e.pedidos).1.botao_b_pressionado = s.botao_b_pressionado := hpoll
  rw [hpoll'.2.1, hpoll'.2.2, hpoll'.1]
  unfold botao_b_detectado at hb
  rw [hb]
  simp

theorem executar_mantem_emergencia (es : List Entrada) :
    ∀ s : Estado, s.emergencia = true → sem_reconhecimento s es →
      ∀ n : Nat, (executar s (es.take n)).emergencia = true := by
  induction es with
  | nil => intro s h _ n; simpa [executar] using h
  | cons e es ih =>
    intro s h hs n
    cases n with
    | zero => simpa [executar] using h
    | succ n =>
      obtain ⟨hq, hb, hrest⟩ := hs
      exact ih (tick s e).1 (tick_mantem_emergencia s e h hq hb) hrest n

/-- A pass with a cool sample and every button released in which the poll
delivers `GET /alarm_offline HTTP/1.1`. -/
def passe_alarm_offline : Entrada :=
  { pedidos := [{ p := some "GET /alarm_offline HTTP/1.1".toList, temp := "20.00".toList }]
    agora := 2000, gpio_joystick := true, gpio_botao_a := true, gpio_botao_b := true
    temperatura := 20, temp_oled := "20.00".toList, ip := "N/A".toList }

/-- C3, as stated, fails: after a temperature phase that sampled 41 has set
`emergencia`, one pass with a sample of 20, Button B not detected and the
request `GET /alarm_offline HTTP/1.1`, whose path `/alarm_offline` is not
`/alarm_off`, ends with `emergencia = false`, because the request contains the
string `GET /alarm_off` and line 337 takes it for the alarm-off command. -/
theorem alarm_offline_solta_trava :
    (fase_temperatura estado_inicial 1000 41).emergencia = true ∧
    passe_alarm_offline.pedidos =
      [{ p := some "GET /alarm_offline HTTP/1.1".toList, temp := "20.00".toList }] ∧
    caminho_requisicao "GET /alarm_offline HTTP/1.1".toList = "/alarm_offline".toList ∧
    caminho_requisicao "GET /alarm_offline HTTP/1.1".toList ≠ "/alarm_off".toList ∧
    passe_alarm_offline.temperatura = 20 ∧
    botao_b_detectado (fase_temperatura estado_inicial 1000 41) passe_alarm_offline = false ∧
    (tick (fase_temperatura estado_inicial 1000 41) passe_alarm_offline).1.emergencia
      = false := by
  decide

/-- C3, amended: a temperature check whose sample is above 40 leaves
`emergencia = true` (in `verificar_temperatura`, and in `fase_temperatura` when
the phase is due); and from any state with `emergencia = true`, over any run of
passes, with any temperatures, any Button A and joystick samples and any HTTP
requests that the dispatch does not handle as alarm-off (requests that do not
contain `GET /alarm_off`, or that contain one of the eight command strings
tested before it), in which Button B is never detected as pressed,
`emergencia` is still true after every pass. -/
theorem emergencia_e_trava (s : Estado) (agora : Nat) (temperatura : ℚ)
    (ht : temperatura > 40) :
    (verificar_temperatura s temperatura).emergencia = true ∧
    (decorrido agora s.ultima_leitura_temperatura ≥ 1000 →
      (fase_temperatura s agora temperatura).emergencia = true) ∧
    (∀ (s1 : Estado) (es : List Entrada), s1.emergencia = true → sem_reconhecimento s1 es →
      ∀ n : Nat, (executar s1 (es.take n)).emergencia = true) := by
  refine ⟨by simp [verificar_temperatura, ht], fun hg => ?_,
    fun s1 es h hs n => executar_mantem_emergencia es s1 h hs n⟩
  simp [fase_temperatura, verificar_temperatura, ht, hg]

/-- Two passes after the alarm was raised: a `led_on` request with every
button released and a cool sample, then the joystick and Button A pressed. -/
def passes_exemplo : List Entrada :=
  [{ pedidos := [{ p := some "GET /led_on HTTP/1.1".toList, temp := "20.00".toList }]
     agora := 2000, gpio_joystick := true, gpio_botao_a := true, gpio_botao_b := true
     temperatura := 20, temp_oled := "20.00".toList, ip := "N/A".toList },
   { pedidos := []
     agora := 3000, gpio_joystick := false, gpio_botao_a := false, gpio_botao_b := true
     temperatura := 20, temp_oled := "20.00".toList, ip := "N/A".toList }]

theorem emergencia_e_trava_witness :
    (41 : ℚ) > 40 ∧
    (fase_temperatura estado_inicial 1000 41).emergencia = true ∧
    sem_reconhecimento (fase_temperatura estado_inicial 1000 41) passes_exemplo ∧
    (executar (fase_temperatura estado_inicial 1000 41) passes_exemplo).emergencia = true := by
  have ht : (41 : ℚ) > 40 := by decide
  have h := emergencia_e_trava estado_inicial 1000 41 ht
  have h1 : (fase_temperatura estado_inicial 1000 41).emergencia = true := h.2.1 (by decide)
  have hs : sem_reconhecimento (fase_temperatura estado_inicial 1000 41) passes_exemplo :=
    ⟨by decide, by decide, by decide, by decide, trivial⟩
  exact ⟨ht, h1, hs, h.2.2 _ passes_exemplo h1 hs 2⟩

/-! ## C11 - the words sent to the matrix -/

/-- The 25 cells `(i, j)` of a `[5][5]` table, row by row. -/
def celulas : List (Nat × Nat) :=
  (List.range 25).map (fun n => (n / 5, n % 5))

/-- The cells listed by the index `pixel_map` gives them, from 0 to 24. -/
def celulas_por_indice : List (Nat × Nat) :=
  (List.range 25).map
    (fun k => (4 - k / 5, if (k / 5) % 2 = 0 then 4 - k % 5 else k % 5))

/-- One iteration of the inner loop body (lines 303-305) at cell `c`. -/
def passo_pixel (padrao : List (List Nat)) (v : Nat) (pixels : List Nat) (c : Nat × Nat) :
    List Nat :=
  if celula padrao c.1 c.2 ≠ 0 then pixels.set (celula pixel_map c.1 c.2) v else pixels

theorem preencher_pixels_eq (padrao : List (List Nat)) (r g b : Nat) :
    preencher_pixels padrao r g b =
      celulas.foldl (passo_pixel padrao ((r <<< 8) ||| (g <<< 16) ||| b))
        (List.replicate 25 0) := rfl

theorem passo_pixel_length (padrao : List (List Nat)) (v : Nat) (px : List Nat) (c : Nat × Nat) :
    (passo_pixel padrao v px c).length = px.length := by
  unfold passo_pixel
  split_ifs <;> simp

theorem foldl_passo_pixel_getElem? (padrao : List (List Nat)) (v : Nat) (cs : List (Nat × Nat)) :
    ∀ (px : List Nat) (k : Nat), k < px.length →
      (cs.foldl (passo_pixel padrao v) px)[k]? =
        if ∃ c ∈ cs, celula pixel_map c.1 c.2 = k ∧ celula padrao c.1 c.2 ≠ 0 then some v
        else px[k]? := by
  induction cs with
  | nil => intro px k _; simp
  | cons c cs ih =>
    intro px k hk
    rw [List.foldl_cons, ih _ k (by rw [passo_pixel_length]; exact hk)]
    by_cases h1 : ∃ c' ∈ cs, celula pixel_map c'.1 c'.2 = k ∧ celula padrao c'.1 c'.2 ≠ 0
    · have h2 : ∃ c' ∈ c :: cs, celula pixel_map c'.1 c'.2 = k ∧ celula padrao c'.1 c'.2 ≠ 0 := by
        obtain ⟨c', hm, hc⟩ := h1
        exact ⟨c', List.mem_cons_of_mem _ hm, hc⟩
      rw [if_pos h1, if_pos h2]
    · rw [if_neg h1]
      by_cases h3 : celula pixel_map c.1 c.2 = k ∧ celula padrao c.1 c.2 ≠ 0
      · have h2 : ∃ c' ∈ c :: cs, celula pixel_map c'.1 c'.2 = k ∧ celula padrao c'.1 c'.2 ≠ 0 :=
          ⟨c, List.mem_cons_self _ _, h3⟩
        rw [if_pos h2]
        unfold passo_pixel
        rw [if_pos h3.2, h3.1]
        exact List.getElem?_set_self hk
      · have h2 : ¬ ∃ c' ∈ c :: cs, celula pixel_map c'.1 c'.2 = k ∧ celula padrao c'.1 c'.2 ≠ 0 := by
          rintro ⟨c', hm, hc⟩
          rcases List.mem_cons.mp hm with rfl | hm'
          · exact h3 hc
          · exact h1 ⟨c', hm', hc⟩
        rw [if_neg h2]
        unfold passo_pixel
        split_ifs with h4
        · have h5 : celula pixel_map c.1 c.2 ≠ k := fun h => h3 ⟨h, h4⟩
          exact List.getElem?_set_ne h5
        · rfl

theorem celulas_por_indice_perm : celulas_por_indice.Perm celulas := by decide
theorem celulas_por_indice_indices :
    celulas_por_indice.map (fun c => celula pixel_map c.1 c.2) = List.range 25 := by decide
theorem celulas_unica : ∀ c ∈ celulas, ∀ k, k < 25 → celula pixel_map c.1 c.2 = k →
    celulas_por_indice[k]? = some c := by decide

theorem celulas_indice_existe : ∀ k, k < 25 →
    ∃ c ∈ celulas, celulas_por_indice[k]? = some c ∧ celula pixel_map c.1 c.2 = k := by
  decide

theorem foldl_passo_pixel_length (padrao : List (List Nat)) (v : Nat) (cs : List (Nat × Nat)) :
    ∀ px : List Nat, (cs.foldl (passo_pixel padrao v) px).length = px.length := by
  induction cs with
  | nil => intro px; rfl
  | cons c cs ih => intro px; rw [List.foldl_cons, ih, passo_pixel_length]

/-- The array `pixels` after the loops, read index by index. -/
theorem preencher_pixels_por_indice (padrao : List (List Nat)) (r g b : Nat) :
    preencher_pixels padrao r g b =
      celulas_por_indice.map
        (fun c => if celula padrao c.1 c.2 ≠ 0 then (r <<< 8) ||| (g <<< 16) ||| b else 0) := by
  rw [preencher_pixels_eq]
  apply List.ext_getElem?
  intro k
  by_cases hk : k < 25
  · rw [foldl_passo_pixel_getElem? _ _ _ _ k (by simpa using hk)]
    obtain ⟨c, hm, hc, hi⟩ := celulas_indice_existe k hk
    rw [List.getElem?_map, hc, Option.map_some']
    by_cases ha : celula padrao c.1 c.2 ≠ 0
    · rw [if_pos ⟨c, hm, hi, ha⟩, if_pos ha]
    · have hne : ¬ ∃ c' ∈ celulas, celula pixel_map c'.1 c'.2 = k ∧ celula padrao c'.1 c'.2 ≠ 0 := by
        rintro ⟨c', hm', hi', ha'⟩
        have e := celulas_unica c' hm' k hk hi'
        rw [hc] at e
        exact ha (by rw [Option.some.inj e]; exact ha')
      rw [if_neg hne, if_neg ha, List.getElem?_replicate, if_pos hk]
  · have h1 : (List.foldl (passo_pixel padrao ((r <<< 8) ||| (g <<< 16) ||| b))
        (List.replicate 25 0) celulas).length ≤ k := by
      rw [foldl_passo_pixel_length, List.length_replicate]; omega
    have h2 : (celulas_por_indice.map
        (fun c => if celula padrao c.1 c.2 ≠ 0 then (r <<< 8) ||| (g <<< 16) ||| b else 0)).length
        ≤ k := by
      rw [List.length_map]
      have : celulas_por_indice.length = 25 := rfl
      omega
    rw [List.getElem?_eq_none h1, List.getElem?_eq_none h2]

theorem lor_eq_zero (x y : Nat) (h : x ||| y = 0) : x = 0 ∧ y = 0 := by
  have hx : ∀ i, (x ||| y).testBit i = false := by intro i; rw [h]; exact Nat.zero_testBit i
  constructor
  · apply Nat.eq_of_testBit_eq
    intro i
    have := hx i
    rw [Nat.testBit_or, Bool.or_eq_false_iff] at this
    rw [this.1, Nat.zero_testBit]
  · apply Nat.eq_of_testBit_eq
    intro i
    have := hx i
    rw [Nat.testBit_or, Bool.or_eq_false_iff] at this
    rw [this.2, Nat.zero_testBit]

/-- For bytes the shifted word fits 32 bits. -/
theorem palavra_cabe (r g b : Nat) (hr : r < 256) (hg : g < 256) (hb : b < 256) :
    (((r <<< 8) ||| (g <<< 16) ||| b) <<< 8) % 2 ^ 32 = ((g <<< 16) ||| (r <<< 8) ||| b) <<< 8 := by
  have h1 : r <<< 8 < 2 ^ 24 := by rw [Nat.shiftLeft_eq]; omega
  have h2 : g <<< 16 < 2 ^ 24 := by rw [Nat.shiftLeft_eq]; omega
  have h3 : b < 2 ^ 24 := by omega
  have h4 : (r <<< 8) ||| (g <<< 16) ||| b < 2 ^ 24 :=
    Nat.or_lt_two_pow (Nat.or_lt_two_pow h1 h2) h3
  rw [Nat.or_comm (g <<< 16) (r <<< 8)]
  apply Nat.mod_eq_of_lt
  rw [Nat.shiftLeft_eq]
  omega

theorem palavra_ne_zero (r g b : Nat) (h : (r, g, b) ≠ (0, 0, 0)) :
    ((g <<< 16) ||| (r <<< 8) ||| b) <<< 8 ≠ 0 := by
  intro h0
  rw [Nat.shiftLeft_eq] at h0
  have h1 : (g <<< 16) ||| (r <<< 8) ||| b = 0 := by omega
  obtain ⟨h2, hb⟩ := lor_eq_zero _ _ h1
  obtain ⟨hg, hr⟩ := lor_eq_zero _ _ h2
  rw [Nat.shiftLeft_eq] at hg hr
  apply h
  have : r = 0 := by omega
  have : g = 0 := by omega
  simp [*]


/-- The 25 words emitted, for bytes `r`, `g`, `b`, listed by index. -/
theorem configurar_matriz_por_indice (padrao : List (List Nat)) (r g b : Nat)
    (hr : r < 256) (hg : g < 256) (hb : b < 256) :
    configurar_matriz padrao r g b =
      celulas_por_indice.map
        (fun c => if celula padrao c.1 c.2 ≠ 0 then ((g <<< 16) ||| (r <<< 8) ||| b) <<< 8
                  else 0) := by
  unfold configurar_matriz
  rw [preencher_pixels_por_indice, List.map_map]
  apply List.map_congr_left
  intro c _
  show ((if celula padrao c.1 c.2 ≠ 0 then (r <<< 8) ||| (g <<< 16) ||| b else 0) <<< 8)
    % 2 ^ 32 = _
  split_ifs
  · exact palavra_cabe r g b hr hg hb
  · rfl

theorem pixel_map_formula : ∀ i, i < 5 → ∀ j, j < 5 →
    celula pixel_map i j = (if i % 2 = 0 then (4 - i) * 5 + (4 - j) else (4 - i) * 5 + j) ∧
    celula pixel_map i j < 25 ∧ (i, j) ∈ celulas := by
  decide

theorem pixel_map_injetiva (i j i' j' : Nat) (hi : i < 5) (hj : j < 5) (hi' : i' < 5)
    (hj' : j' < 5) (h : celula pixel_map i j = celula pixel_map i' j') :
    i = i' ∧ j = j' := by
  obtain ⟨_, hlt, hm⟩ := pixel_map_formula i hi j hj
  obtain ⟨_, _, hm'⟩ := pixel_map_formula i' hi' j' hj'
  have e1 := celulas_unica (i, j) hm _ hlt rfl
  have e2 := celulas_unica (i', j') hm' _ hlt h.symm
  rw [e1] at e2
  exact Prod.mk.inj (Option.some.inj e2)

theorem pixel_map_sobrejetiva : ∀ k, k < 25 →
    ∃ i, i < 5 ∧ ∃ j, j < 5 ∧ celula pixel_map i j = k := by
  decide

/-- C11: for every pattern and every triple of bytes `(r, g, b)`,
`configurar_matriz` emits exactly 25 words; `pixel_map` follows the serpentine
formula, sends the 25 cells into `0..24`, and is injective and onto, so no two
cells write the same word; the word at the index of cell `(i, j)` is
`((g << 16) | (r << 8) | b) << 8` when the cell is active in the pattern and 0
otherwise; hence the number of non-zero words is the number of active cells
when `(r, g, b)` is not `(0, 0, 0)`, and all 25 words are 0 when it is. -/
theorem configurar_matriz_palavras (padrao : List (List Nat)) (r g b : Nat)
    (hr : r < 256) (hg : g < 256) (hb : b < 256) :
    (configurar_matriz padrao r g b).length = 25 ∧
    (∀ i j, i < 5 → j < 5 →
      celula pixel_map i j =
        if i % 2 = 0 then (4 - i) * 5 + (4 - j) else (4 - i) * 5 + j) ∧
    (∀ i j, i < 5 → j < 5 → celula pixel_map i j < 25) ∧
    (∀ i j i' j', i < 5 → j < 5 → i' < 5 → j' < 5 →
      celula pixel_map i j = celula pixel_map i' j' → i = i' ∧ j = j') ∧
    (∀ k, k < 25 → ∃ i j, i < 5 ∧ j < 5 ∧ celula pixel_map i j = k) ∧
    (∀ i j, i < 5 → j < 5 →
      (configurar_matriz padrao r g b).getD (celula pixel_map i j) 0 =
        if celula padrao i j ≠ 0 then ((g <<< 16) ||| (r <<< 8) ||| b) <<< 8 else 0) ∧
    ((r, g, b) ≠ (0, 0, 0) →
      ((configurar_matriz padrao r g b).filter (fun w => decide (w ≠ 0))).length =
        (celulas.filter (fun c => decide (celula padrao c.1 c.2 ≠ 0))).length) ∧
    configurar_matriz padrao 0 0 0 = List.replicate 25 0 := by
  have hw := configurar_matriz_por_indice padrao r g b hr hg hb
  refine ⟨?_, fun i j hi hj => (pixel_map_formula i hi j hj).1,
    fun i j hi hj => (pixel_map_formula i hi j hj).2.1,
    fun i j i' j' hi hj hi' hj' => pixel_map_injetiva i j i' j' hi hj hi' hj',
    fun k hk => ?_, fun i j hi hj => ?_, fun hz => ?_, ?_⟩
  · rw [hw, List.length_map]
    rfl
  · obtain ⟨i, hi, j, hj, h⟩ := pixel_map_sobrejetiva k hk
    exact ⟨i, j, hi, hj, h⟩
  · obtain ⟨_, hlt, hm⟩ := pixel_map_formula i hi j hj
    have e := celulas_unica (i, j) hm _ hlt rfl
    rw [hw, List.getD_eq_getElem?_getD, List.getElem?_map, e]
    rfl
  · rw [hw, List.filter_map, List.length_map, ← celulas_por_indice_perm.filter _ |>.length_eq]
    congr 1
    apply List.filter_congr
    intro c _
    have hne := palavra_ne_zero r g b hz
    show decide ((if celula padrao c.1 c.2 ≠ 0 then ((g <<< 16) ||| (r <<< 8) ||| b) <<< 8
      else 0) ≠ 0) = decide (celula padrao c.1 c.2 ≠ 0)
    by_cases ha : celula padrao c.1 c.2 ≠ 0
    · rw [if_pos ha]; simp [hne, ha]
    · rw [if_neg ha]; simp [ha]
  · rw [configurar_matriz_por_indice padrao 0 0 0 (by decide) (by decide) (by decide)]
    have e : ∀ c : Nat × Nat,
        (if celula padrao c.1 c.2 ≠ 0 then ((0 <<< 16) ||| (0 <<< 8) ||| 0) <<< 8 else 0) = 0 := by
      intro c
      split_ifs <;> rfl
    simp only [e]
    rfl


theorem configurar_matriz_palavras_witness :
    (configurar_matriz padrao_V 32 0 0).length = 25 ∧
    (configurar_matriz padrao_V 32 0 0).getD (celula pixel_map 1 0) 0 =
      (if celula padrao_V 1 0 ≠ 0 then ((0 <<< 16) ||| (32 <<< 8) ||| 0) <<< 8 else 0) ∧
    ((configurar_matriz padrao_V 32 0 0).filter (fun w => decide (w ≠ 0))).length =
      (celulas.filter (fun c => decide (celula padrao_V c.1 c.2 ≠ 0))).length :=
  ⟨(configurar_matriz_palavras padrao_V 32 0 0 (by decide) (by decide) (by decide)).1,
    (configurar_matriz_palavras padrao_V 32 0 0 (by decide) (by decide)
      (by decide)).2.2.2.2.2.1 1 0 (by decide) (by decide),
    (configurar_matriz_palavras padrao_V 32 0 0 (by decide) (by decide)
      (by decide)).2.2.2.2.2.2.1 (by decide)⟩

/-! ## C12 - the buzzer phase -/

/-- C12: after the buzzer phase, if `emergencia` is false the buzzer output is
off, whatever it was, and `ultimo_buzzer` is unchanged; if `emergencia` is true
and the `uint32_t` difference `agora - ultimo_buzzer` is at least 1000 the
buzzer output is inverted and `ultimo_buzzer` becomes `agora`; if `emergencia`
is true and the difference is below 1000 both are unchanged.  No other field
changes in any of the three cases. -/
theorem fase_buzzer_casos (s : Estado) (agora : Nat) :
    (s.emergencia = false →
      (fase_buzzer s agora).buzzer = false ∧
      (fase_buzzer s agora).ultimo_buzzer = s.ultimo_buzzer ∧
      fase_buzzer s agora = { s with buzzer := false }) ∧
    (s.emergencia = true → decorrido agora s.ultimo_buzzer ≥ 1000 →
      (fase_buzzer s agora).buzzer = (!s.buzzer) ∧
      (fase_buzzer s agora).ultimo_buzzer = agora ∧
      fase_buzzer s agora = { s with buzzer := !s.buzzer, ultimo_buzzer := agora }) ∧
    (s.emergencia = true → decorrido agora s.ultimo_buzzer < 1000 →
      (fase_buzzer s agora).buzzer = s.buzzer ∧
      (fase_buzzer s agora).ultimo_buzzer = s.ultimo_buzzer ∧
      fase_buzzer s agora = s) := by
  refine ⟨fun he => ?_, fun he hd => ?_, fun he hd => ?_⟩
  · obtain ⟨cor, led, em, t1, t2, t3, t4, fj, fa, fb, bz, lr, lg, lb, mz, ol⟩ := s
    simp only at he
    subst he
    cases bz <;> simp [fase_buzzer]
  · simp [fase_buzzer, he, hd]
  · have hd' : ¬ 1000 ≤ decorrido agora s.ultimo_buzzer := Nat.not_le.mpr hd
    simp [fase_buzzer, he, hd']

theorem fase_buzzer_casos_witness :
    (fase_buzzer { estado_inicial with buzzer := true } 5000).buzzer = false ∧
    fase_buzzer { estado_inicial with emergencia := true } 1000 =
      { estado_inicial with emergencia := true, buzzer := true, ultimo_buzzer := 1000 } ∧
    fase_buzzer { estado_inicial with emergencia := true } 999 =
      { estado_inicial with emergencia := true } :=
  ⟨((fase_buzzer_casos { estado_inicial with buzzer := true } 5000).1 rfl).1,
    ((fase_buzzer_casos { estado_inicial with emergencia := true } 1000).2.1 rfl
      (by decide)).2.2,
    ((fase_buzzer_casos { estado_inicial with emergencia := true } 999).2.2 rfl
      (by decide)).2.2⟩

/-! ## C13 - phase gating over the wrap of the millisecond counter -/

/-- The `uint32_t` difference of the two truncated timestamps is the true
elapsed time as long as that is below `2 ^ 32`. -/
theorem decorrido_mod (N L : Nat) (hLN : L ≤ N) (hd : N - L < 2 ^ 32) :
    decorrido (N % 2 ^ 32) (L % 2 ^ 32) = N - L := by
  unfold decorrido
  norm_num at hd ⊢
  omega

/-- C13: for true times `L ≤ N` with `N - L < 2 ^ 32`, the `uint32_t`
difference the code computes from the truncated timestamps equals `N - L`;
hence each of the button (interval 10), temperature (1000) and display (1000)
phases, whose last-fired timestamp holds `L mod 2 ^ 32` and which reads
`N mod 2 ^ 32` as the current time, runs exactly when `N - L` reaches its
interval; a phase that runs stores the current timestamp as its last-fired
timestamp and one that does not run returns the state untouched. -/
theorem fases_com_wraparound (s : Estado) (N L : Nat) (hLN : L ≤ N) (hd : N - L < 2 ^ 32) :
    decorrido (N % 2 ^ 32) (L % 2 ^ 32) = N - L ∧
    (s.ultimo_botao = L % 2 ^ 32 → ∀ gj ga gb,
      fase_botoes s (N % 2 ^ 32) gj ga gb =
        (if N - L ≥ 10 then
          { verificar_botoes s gj ga gb with ultimo_botao := N % 2 ^ 32 }
         else s) ∧
      (N - L ≥ 10 → (fase_botoes s (N % 2 ^ 32) gj ga gb).ultimo_botao = N % 2 ^ 32) ∧
      (N - L < 10 → (fase_botoes s (N % 2 ^ 32) gj ga gb).ultimo_botao = s.ultimo_botao)) ∧
    (s.ultima_leitura_temperatura = L % 2 ^ 32 → ∀ temperatura : ℚ,
      fase_temperatura s (N % 2 ^ 32) temperatura =
        (if N - L ≥ 1000 then
          { verificar_temperatura s temperatura with
            ultima_leitura_temperatura := N % 2 ^ 32 }
         else s) ∧
      (N - L ≥ 1000 →
        (fase_temperatura s (N % 2 ^ 32) temperatura).ultima_leitura_temperatura
          = N % 2 ^ 32) ∧
      (N - L < 1000 →
        (fase_temperatura s (N % 2 ^ 32) temperatura).ultima_leitura_temperatura
          = s.ultima_leitura_temperatura)) ∧
    (s.ultima_atualizacao_oled = L % 2 ^ 32 → ∀ temp ip : List Char,
      fase_display s (N % 2 ^ 32) temp ip =
        (if N - L ≥ 1000 then
          { atualizar_display s temp ip with ultima_atualizacao_oled := N % 2 ^ 32 }
         else s) ∧
      (N - L ≥ 1000 →
        (fase_display s (N % 2 ^ 32) temp ip).ultima_atualizacao_oled = N % 2 ^ 32) ∧
      (N - L < 1000 →
        (fase_display s (N % 2 ^ 32) temp ip).ultima_atualizacao_oled
          = s.ultima_atualizacao_oled)) := by
  have e := decorrido_mod N L hLN hd
  refine ⟨e, fun hs gj ga gb => ?_, fun hs temperatura => ?_, fun hs temp ip => ?_⟩
  · have h : fase_botoes s (N % 2 ^ 32) gj ga gb =
        (if N - L ≥ 10 then
          { verificar_botoes s gj ga gb with ultimo_botao := N % 2 ^ 32 }
         else s) := by
      unfold fase_botoes
      rw [hs, e]
    refine ⟨h, fun hg => ?_, fun hg => ?_⟩
    · rw [h, if_pos hg]
    · rw [h, if_neg (Nat.not_le.mpr hg)]
  · have h : fase_temperatura s (N % 2 ^ 32) temperatura =
        (if N - L ≥ 1000 then
          { verificar_temperatura s temperatura with
            ultima_leitura_temperatura := N % 2 ^ 32 }
         else s) := by
      unfold fase_temperatura
      rw [hs, e]
    refine ⟨h, fun hg => ?_, fun hg => ?_⟩
    · rw [h, if_pos hg]
    · rw [h, if_neg (Nat.not_le.mpr hg)]
  · have h : fase_display s (N % 2 ^ 32) temp ip =
        (if N - L ≥ 1000 then
          { atualizar_display s temp ip with ultima_atualizacao_oled := N % 2 ^ 32 }
         else s) := by
      unfold fase_display
      rw [hs, e]
    refine ⟨h, fun hg => ?_, fun hg => ?_⟩
    · rw [h, if_pos hg]
    · rw [h, if_neg (Nat.not_le.mpr hg)]

theorem fases_com_wraparound_witness :
    4294967291 ≤ 4294967306 ∧ 4294967306 - 4294967291 < 2 ^ 32 ∧
    decorrido (4294967306 % 2 ^ 32) (4294967291 % 2 ^ 32) = 15 ∧
    (fase_botoes { estado_inicial with ultimo_botao := 4294967291 } (4294967306 % 2 ^ 32)
      true true true).ultimo_botao = 10 :=
  ⟨by decide, by decide,
    (fases_com_wraparound { estado_inicial with ultimo_botao := 4294967291 }
      4294967306 4294967291 (by decide) (by decide)).1,
    (((fases_com_wraparound { estado_inicial with ultimo_botao := 4294967291 }
      4294967306 4294967291 (by decide) (by decide)).2.1 rfl true true true).2.1
      (by decide))⟩

/-! ## C14 - an acknowledgment cannot mask an over-temperature sample -/

theorem processar_requisicao_ultima_leitura (s : Estado) (req : List Char) :
    (processar_requisicao s req).ultima_leitura_temperatura = s.ultima_leitura_temperatura := by
  unfold processar_requisicao
  split_ifs <;> rfl

theorem fase_botoes_ultima_leitura (s : Estado) (agora : Nat) (gj ga gb : Bool) :
    (fase_botoes s agora gj ga gb).ultima_leitura_temperatura
      = s.ultima_leitura_temperatura := by
  have e := verificar_botoes_passo s (!gj) (!ga) (!gb)
  simp only [Bool.not_not] at e
  unfold fase_botoes
  split_ifs
  · show (verificar_botoes s gj ga gb).ultima_leitura_temperatura = _
    rw [e]
  · rfl

theorem cyw43_arch_poll_ultima_leitura (s : Estado) (pedidos : List Pedido) :
    (cyw43_arch_poll s pedidos).1.ultima_leitura_temperatura
      = s.ultima_leitura_temperatura := by
  refine cyw43_arch_poll_preserva
    (fun x => x.ultima_leitura_temperatura = s.ultima_leitura_temperatura) pedidos ?_ s [] rfl
  intro q _ x hx
  cases hp : q.p with
  | none => simpa [tcp_server_recv] using hx
  | some payload =>
    exact (processar_requisicao_ultima_leitura x (c_str payload)).trans hx

/-- C14: in a pass of the loop in which the temperature phase is due and reads
a sample above 40, whatever requests the network poll delivers (alarm-off
included) and whatever the buttons read (a detected Button B press included),
`emergencia` is true at the end of the pass and the render step of that pass
shows the emergency output: the three RGB LED channels off and the `!` glyph
with `(r, g, b) = (32, 0, 0)` on the matrix. -/
theorem sobretemperatura_nao_mascarada (s : Estado) (e : Entrada)
    (hg : decorrido e.agora s.ultima_leitura_temperatura ≥ 1000)
    (ht : e.temperatura > 40) :
    (tick s e).1.emergencia = true ∧
    (tick s e).1.led_r = false ∧ (tick s e).1.led_g = false ∧ (tick s e).1.led_b = false ∧
    (tick s e).1.matriz = configurar_matriz padrao_exclamacao 32 0 0 := by
  have h1 : (fase_botoes (cyw43_arch_poll s e.pedidos).1 e.agora e.gpio_joystick
      e.gpio_botao_a e.gpio_botao_b).ultima_leitura_temperatura
        = s.ultima_leitura_temperatura := by
    rw [fase_botoes_ultima_leitura, cyw43_arch_poll_ultima_leitura]
  have h2 : (fase_temperatura
      (fase_botoes (cyw43_arch_poll s e.pedidos).1 e.agora e.gpio_joystick
        e.gpio_botao_a e.gpio_botao_b) e.agora e.temperatura).emergencia = true := by
    unfold fase_temperatura
    rw [h1, if_pos hg]
    simp [verificar_temperatura, ht]
  have h3 : (fase_buzzer (fase_display (fase_temperatura
      (fase_botoes (cyw43_arch_poll s e.pedidos).1 e.agora e.gpio_joystick
        e.gpio_botao_a e.gpio_botao_b) e.agora e.temperatura)
      e.agora e.temp_oled e.ip) e.agora).emergencia = true := by
    rw [fase_buzzer_emergencia, fase_display_emergencia, h2]
  simp only [tick]
  simp [renderizar, configurar_led_rgb, h3]

theorem sobretemperatura_nao_mascarada_witness :
    (tick { estado_inicial with emergencia := true }
      { pedidos := [{ p := some "GET /alarm_off HTTP/1.1".toList, temp := "41.00".toList }]
        agora := 1000, gpio_joystick := true, gpio_botao_a := true, gpio_botao_b := false
        temperatura := 41, temp_oled := "41.00".toList, ip := "N/A".toList }).1.emergencia
      = true :=
  (sobretemperatura_nao_mascarada { estado_inicial with emergencia := true }
    { pedidos := [{ p := some "GET /alarm_off HTTP/1.1".toList, temp := "41.00".toList }]
      agora := 1000, gpio_joystick := true, gpio_botao_a := true, gpio_botao_b := false
      temperatura := 41, temp_oled := "41.00".toList, ip := "N/A".toList }
    (by decide) (by decide)).1

end Painel
